import Mathlib

/-!
# The `hgspy` extension module (`src/hgs/src/bindings.cpp`)

`bindings.cpp` is one `PYBIND11_MODULE(hgspy, m)` block: a sequence of
registrations (classes with their constructors, attributes and methods,
submodules, free functions).  The embedding below is that sequence as data,
statement by statement and in source order, together with the queries that the
results below are stated with.
-/

namespace Hgspy

/-! ## Data model of a registration -/

/-- A template argument: a number (`Exchange<1, 0>`) or a type
(`LocalSearchOperator<Node>`). -/
inductive TArg where
  | num (n : Nat)
  | ty (name : String)
  deriving DecidableEq, Repr

/-- A bound C++ class: its name and template arguments (none for a plain class). -/
structure CppClass where
  name : String
  targs : List TArg
  deriving DecidableEq, Repr

/-- C++ types that occur as parameter types in the bindings. -/
inductive CppType where
  | int
  | unsignedInt
  | sizeT
  | double
  | bool
  | cls (c : CppClass)
  | vector (elem : CppType)
  | pair (fst snd : CppType)
  | ref (t : CppType)
  | constRef (t : CppType)
  deriving DecidableEq, Repr

/-- A literal written as the default of a `py::arg`.  A decimal literal keeps
its digits: `dec m k` is the literal whose digits are `m` with `k` of them
after the point (`1.34` is `dec 134 2`). -/
inductive Default where
  | nat (n : Nat)
  | dec (mantissa : Nat) (fracDigits : Nat)
  | bool (b : Bool)
  | char (c : Char)
  deriving DecidableEq, Repr

/-- One `py::arg("name")` or `py::arg("name") = literal`. -/
structure Arg where
  name : String
  dflt : Option Default
  deriving DecidableEq, Repr

/-- One member registration chained on a `py::class_`. -/
inductive Def where
  /-- Constructor: `.def(py::init<types...>(), args...)`. -/
  | init (types : List CppType) (args : List Arg)
  /-- Method: `.def("name", &target, args...)`; `byRef` records
  `py::return_value_policy::reference`. -/
  | method (name : String) (target : String) (args : List Arg) (byRef : Bool)
  /-- Method picked from an overload set:
  `.def("name", static_cast<void (C::*)(params...)>(&target), args...)`. -/
  | methodCast (name : String) (target : String) (params : List CppType) (args : List Arg)
  /-- Static method: `.def_static("name", &target)`. -/
  | static (name : String) (target : String)
  /-- Read-only attribute: `.def_readonly("name", &member)`. -/
  | readonly (name : String) (member : String)
  /-- Writable attribute: `.def_readwrite("name", &member)`; part of the pybind11 interface, and
  never used in this file. -/
  | readwrite (name : String) (member : String)
  deriving DecidableEq, Repr

/-- One `py::class_<cppType[, base]>(scope, "pyName")` with its chained members. -/
structure ClassBinding where
  scope : String
  cppType : CppClass
  base : Option CppClass
  pyName : String
  defs : List Def
  deriving DecidableEq, Repr

/-- One statement of the module body. -/
inductive Stmt where
  | cls (c : ClassBinding)
  /-- Submodule: `py::module var = parent.def_submodule("pyName")`. -/
  | submodule (var : String) (parent : String) (pyName : String)
  /-- Free function: `scope.def("pyName", &target)`. -/
  | func (scope : String) (pyName : String) (target : String)
  deriving DecidableEq, Repr

/-! ## Abbreviations used in the transcription -/

/-- Argument without default: `py::arg("name")`. -/
def arg (name : String) : Arg := ⟨name, none⟩

/-- Argument with default: `py::arg("name") = d`. -/
def argD (name : String) (d : Default) : Arg := ⟨name, some d⟩

/-- A class without template arguments. -/
def plain (name : String) : CppClass := ⟨name, []⟩

/-- The class `Exchange<a, b>`. -/
def exchangeT (a b : Nat) : CppClass := ⟨"Exchange", [.num a, .num b]⟩

/-- The class `LocalSearchOperator<Node>`. -/
def nodeOperator : CppClass := ⟨"LocalSearchOperator", [.ty "Node"]⟩

/-- The class `LocalSearchOperator<Route>`. -/
def routeOperator : CppClass := ⟨"LocalSearchOperator", [.ty "Route"]⟩

/-- The type `ProblemData &`. -/
def dataRef : CppType := .ref (.cls (plain "ProblemData"))

/-- The type `PenaltyManager &`. -/
def pmRef : CppType := .ref (.cls (plain "PenaltyManager"))

/-- The type `XorShift128 &`. -/
def rngRef : CppType := .ref (.cls (plain "XorShift128"))

/-- The type `ProblemData const &`. -/
def dataCRef : CppType := .constRef (.cls (plain "ProblemData"))

/-- The type `PenaltyManager const &`. -/
def pmCRef : CppType := .constRef (.cls (plain "PenaltyManager"))

/-- A method bound without arguments and without a return value policy. -/
def meth (name target : String) : Def := .method name target [] false

/-! ## The module body, in source order -/

/-- Lines 37-38. -/
def clsXorShift128 : ClassBinding :=
  ⟨"m", plain "XorShift128", none, "XorShift128",
    [.init [.int] [arg "seed"]]⟩

/-- Lines 40-60. -/
def clsPenaltyParams : ClassBinding :=
  ⟨"m", plain "PenaltyParams", none, "PenaltyParams",
    [.init [.unsignedInt, .unsignedInt, .unsignedInt, .double, .double, .double]
       [argD "init_capacity_penalty" (.nat 20),
        argD "init_time_warp_penalty" (.nat 6),
        argD "repair_booster" (.nat 12),
        argD "penalty_increase" (.dec 134 2),
        argD "penalty_decrease" (.dec 32 2),
        argD "target_feasible" (.dec 43 2)],
     .readonly "init_capacity_penalty" "PenaltyParams::initCapacityPenalty",
     .readonly "init_time_warp_penalty" "PenaltyParams::initTimeWarpPenalty",
     .readonly "repair_booster" "PenaltyParams::repairBooster",
     .readonly "penalty_increase" "PenaltyParams::penaltyIncrease",
     .readonly "penalty_decrease" "PenaltyParams::penaltyDecrease",
     .readonly "target_feasible" "PenaltyParams::targetFeasible"]⟩

/-- Lines 62-66. -/
def clsPenaltyManager : ClassBinding :=
  ⟨"m", plain "PenaltyManager", none, "PenaltyManager",
    [.init [.unsignedInt, .cls (plain "PenaltyParams")]
       [arg "vehicle_capacity", arg "params"],
     .init [.unsignedInt] [arg "vehicle_capacity"]]⟩

/-- Lines 68-85. -/
def clsIndividual : ClassBinding :=
  ⟨"m", plain "Individual", none, "Individual",
    [.init [dataRef, pmRef, rngRef]
       [arg "data", arg "penalty_manager", arg "rng"],
     .init [dataRef, pmRef, .vector (.vector .int)]
       [arg "data", arg "penalty_manager", arg "routes"],
     meth "cost" "Individual::cost",
     meth "get_routes" "Individual::getRoutes",
     meth "get_neighbours" "Individual::getNeighbours",
     meth "is_feasible" "Individual::isFeasible",
     meth "has_excess_capacity" "Individual::hasExcessCapacity",
     meth "has_time_warp" "Individual::hasTimeWarp",
     meth "to_file" "Individual::toFile"]⟩

/-- Lines 87-97. -/
def clsLocalSearchParams : ClassBinding :=
  ⟨"m", plain "LocalSearchParams", none, "LocalSearchParams",
    [.init [.sizeT, .sizeT, .sizeT, .sizeT]
       [argD "weight_wait_time" (.nat 18),
        argD "weight_time_warp" (.nat 20),
        argD "nb_granular" (.nat 34),
        argD "post_process_path_length" (.nat 7)],
     .readonly "weight_wait_time" "LocalSearchParams::weightWaitTime",
     .readonly "weight_time_warp" "LocalSearchParams::weightTimeWarp",
     .readonly "nb_granular" "LocalSearchParams::nbGranular",
     .readonly "post_process_path_length" "LocalSearchParams::postProcessPathLength"]⟩

/-- Lines 99-121. -/
def clsLocalSearch : ClassBinding :=
  ⟨"m", plain "LocalSearch", none, "LocalSearch",
    [.init [dataRef, pmRef, rngRef, .cls (plain "LocalSearchParams")]
       [arg "data", arg "penalty_manager", arg "rng", arg "params"],
     .init [dataRef, pmRef, rngRef]
       [arg "data", arg "penalty_manager", arg "rng"],
     .methodCast "add_node_operator" "LocalSearch::addNodeOperator"
       [.ref (.cls nodeOperator)] [arg "op"],
     .methodCast "add_route_operator" "LocalSearch::addRouteOperator"
       [.ref (.cls routeOperator)] [arg "op"],
     .method "search" "LocalSearch::search" [arg "indiv"] false,
     .method "intensify" "LocalSearch::intensify" [arg "indiv"] false]⟩

/-- Lines 123-149. -/
def clsProblemData : ClassBinding :=
  ⟨"m", plain "ProblemData", none, "ProblemData",
    [.init [.constRef (.vector (.pair .int .int)),
            .constRef (.vector .int),
            .int,
            .int,
            .constRef (.vector (.pair .int .int)),
            .constRef (.vector .int),
            .constRef (.vector (.vector .int)),
            .constRef (.vector .int)]
       [arg "coords", arg "demands", arg "nb_vehicles", arg "vehicle_cap",
        arg "time_windows", arg "service_durations", arg "duration_matrix",
        arg "release_times"],
     meth "client" "ProblemData::client",
     meth "depot" "ProblemData::depot",
     meth "dist" "ProblemData::dist",
     .method "distance_matrix" "ProblemData::distanceMatrix" [] true,
     meth "num_clients" "ProblemData::numClients",
     meth "num_vehicles" "ProblemData::numVehicles",
     meth "vehicle_capacity" "ProblemData::vehicleCapacity",
     .static "from_file" "ProblemData::fromFile"]⟩

/-- Lines 151-164. -/
def clsPopulationParams : ClassBinding :=
  ⟨"m", plain "PopulationParams", none, "PopulationParams",
    [.init [.sizeT, .sizeT, .sizeT, .sizeT, .double, .double]
       [argD "min_pop_size" (.nat 25),
        argD "generation_size" (.nat 40),
        argD "nb_elite" (.nat 4),
        argD "nb_close" (.nat 5),
        argD "lb_diversity" (.dec 1 1),
        argD "ub_diversity" (.dec 5 1)],
     .readonly "min_pop_size" "PopulationParams::minPopSize",
     .readonly "generation_size" "PopulationParams::generationSize",
     .readonly "nb_elite" "PopulationParams::nbElite",
     .readonly "nb_close" "PopulationParams::nbClose",
     .readonly "lb_diversity" "PopulationParams::lbDiversity",
     .readonly "ub_diversity" "PopulationParams::ubDiversity"]⟩

/-- Lines 166-185. -/
def clsPopulation : ClassBinding :=
  ⟨"m", plain "Population", none, "Population",
    [.init [dataRef, pmRef, rngRef, .cls (plain "DiversityMeasure"),
            .cls (plain "PopulationParams")]
       [arg "data", arg "penalty_manager", arg "rng", arg "op", arg "params"],
     .init [dataRef, pmRef, rngRef, .cls (plain "DiversityMeasure")]
       [arg "data", arg "penalty_manager", arg "rng", arg "op"],
     .method "add" "Population::add" [arg "individual"] false]⟩

/-- Lines 187-203. -/
def clsStatistics : ClassBinding :=
  ⟨"m", plain "Statistics", none, "Statistics",
    [meth "num_iters" "Statistics::numIters",
     meth "run_times" "Statistics::runTimes",
     meth "iter_times" "Statistics::iterTimes",
     meth "feas_pop_size" "Statistics::feasPopSize",
     meth "feas_best_cost" "Statistics::feasBestCost",
     meth "feas_avg_cost" "Statistics::feasAvgCost",
     meth "feas_avg_num_routes" "Statistics::feasAvgNumRoutes",
     meth "infeas_pop_size" "Statistics::infeasPopSize",
     meth "infeas_best_cost" "Statistics::infeasBestCost",
     meth "infeas_avg_cost" "Statistics::infeasAvgCost",
     meth "infeas_avg_num_routes" "Statistics::infeasAvgNumRoutes",
     meth "incumbents" "Statistics::incumbents",
     .method "to_csv" "Statistics::toCsv" [arg "path", argD "sep" (.char ',')] false]⟩

/-- Lines 205-217. -/
def clsResult : ClassBinding :=
  ⟨"m", plain "Result", none, "Result",
    [.method "get_best_found" "Result::getBestFound" [] true,
     .method "get_statistics" "Result::getStatistics" [] true,
     .method "get_iterations" "Result::getIterations" [] true,
     .method "get_run_time" "Result::getRunTime" [] true]⟩

/-- Lines 219-229. -/
def clsSolverParams : ClassBinding :=
  ⟨"m", plain "SolverParams", none, "SolverParams",
    [.init [.sizeT, .sizeT, .bool, .bool]
       [argD "nb_penalty_management" (.nat 47),
        argD "repair_probability" (.nat 79),
        argD "collect_statistics" (.bool false),
        argD "should_intensify" (.bool true)],
     .readonly "nb_penalty_management" "SolverParams::nbPenaltyManagement",
     .readonly "repair_probability" "SolverParams::repairProbability",
     .readonly "collect_statistics" "SolverParams::collectStatistics",
     .readonly "should_intensify" "SolverParams::shouldIntensify"]⟩

/-- Lines 231-258. -/
def clsGeneticAlgorithm : ClassBinding :=
  ⟨"m", plain "GeneticAlgorithm", none, "GeneticAlgorithm",
    [.init [dataRef, pmRef, rngRef, .ref (.cls (plain "Population")),
            .ref (.cls (plain "LocalSearch")), .cls (plain "CrossoverOperator"),
            .cls (plain "SolverParams")]
       [arg "data", arg "penalty_manager", arg "rng", arg "population",
        arg "local_search", arg "crossover_operator", arg "params"],
     .init [dataRef, pmRef, rngRef, .ref (.cls (plain "Population")),
            .ref (.cls (plain "LocalSearch")), .cls (plain "CrossoverOperator")]
       [arg "data", arg "penalty_manager", arg "rng", arg "population",
        arg "local_search", arg "crossover_operator"],
     .method "run" "GeneticAlgorithm::run" [arg "stop"] false]⟩

/-- Line 268. -/
def clsStoppingCriterion : ClassBinding :=
  ⟨"stop", plain "StoppingCriterion", none, "StoppingCriterion", []⟩

/-- Lines 270-272. -/
def clsMaxIterations : ClassBinding :=
  ⟨"stop", plain "MaxIterations", some (plain "StoppingCriterion"), "MaxIterations",
    [.init [.sizeT] [arg "max_iterations"],
     .method "__call__" "MaxIterations::operator()" [arg "best_cost"] false]⟩

/-- Lines 274-276. -/
def clsMaxRuntime : ClassBinding :=
  ⟨"stop", plain "MaxRuntime", some (plain "StoppingCriterion"), "MaxRuntime",
    [.init [.double] [arg "max_runtime"],
     .method "__call__" "MaxRuntime::operator()" [arg "best_cost"] false]⟩

/-- Lines 278-280. -/
def clsNoImprovement : ClassBinding :=
  ⟨"stop", plain "NoImprovement", some (plain "StoppingCriterion"), "NoImprovement",
    [.init [.sizeT] [arg "max_iterations"],
     .method "__call__" "NoImprovement::operator()" [arg "best_cost"] false]⟩

/-- Lines 282-287. -/
def clsTimedNoImprovement : ClassBinding :=
  ⟨"stop", plain "TimedNoImprovement", some (plain "StoppingCriterion"),
    "TimedNoImprovement",
    [.init [.sizeT, .double] [arg "max_iterations", arg "max_runtime"],
     .method "__call__" "TimedNoImprovement::operator()" [arg "best_cost"] false]⟩

/-- Line 297. -/
def clsNodeLocalSearchOperator : ClassBinding :=
  ⟨"lsOps", nodeOperator, none, "NodeLocalSearchOperator", []⟩

/-- Line 298. -/
def clsRouteLocalSearchOperator : ClassBinding :=
  ⟨"lsOps", routeOperator, none, "RouteLocalSearchOperator", []⟩

/-- Lines 300-303. -/
def clsExchange10 : ClassBinding :=
  ⟨"lsOps", exchangeT 1 0, some nodeOperator, "Exchange10",
    [.init [dataCRef, pmCRef] [arg "data", arg "penalty_manager"]]⟩

/-- Lines 305-308. -/
def clsExchange20 : ClassBinding :=
  ⟨"lsOps", exchangeT 2 0, some nodeOperator, "Exchange20",
    [.init [dataCRef, pmCRef] [arg "data", arg "penalty_manager"]]⟩

/-- Lines 310-313. -/
def clsExchange30 : ClassBinding :=
  ⟨"lsOps", exchangeT 3 0, some nodeOperator, "Exchange30",
    [.init [dataCRef, pmCRef] [arg "data", arg "penalty_manager"]]⟩

/-- Lines 315-318. -/
def clsExchange11 : ClassBinding :=
  ⟨"lsOps", exchangeT 1 1, some nodeOperator, "Exchange11",
    [.init [dataCRef, pmCRef] [arg "data", arg "penalty_manager"]]⟩

/-- Lines 320-323. -/
def clsExchange21 : ClassBinding :=
  ⟨"lsOps", exchangeT 2 1, some nodeOperator, "Exchange21",
    [.init [dataCRef, pmCRef] [arg "data", arg "penalty_manager"]]⟩

/-- Lines 325-328. -/
def clsExchange31 : ClassBinding :=
  ⟨"lsOps", exchangeT 3 1, some nodeOperator, "Exchange31",
    [.init [dataCRef, pmCRef] [arg "data", arg "penalty_manager"]]⟩

/-- Lines 330-333. -/
def clsExchange22 : ClassBinding :=
  ⟨"lsOps", exchangeT 2 2, some nodeOperator, "Exchange22",
    [.init [dataCRef, pmCRef] [arg "data", arg "penalty_manager"]]⟩

/-- Lines 335-338. -/
def clsExchange32 : ClassBinding :=
  ⟨"lsOps", exchangeT 3 2, some nodeOperator, "Exchange32",
    [.init [dataCRef, pmCRef] [arg "data", arg "penalty_manager"]]⟩

/-- Lines 340-343. -/
def clsExchange33 : ClassBinding :=
  ⟨"lsOps", exchangeT 3 3, some nodeOperator, "Exchange33",
    [.init [dataCRef, pmCRef] [arg "data", arg "penalty_manager"]]⟩

/-- Lines 345-349. -/
def clsMoveTwoClientsReversed : ClassBinding :=
  ⟨"lsOps", plain "MoveTwoClientsReversed", some nodeOperator, "MoveTwoClientsReversed",
    [.init [dataCRef, pmCRef] [arg "data", arg "penalty_manager"]]⟩

/-- Lines 351-354. -/
def clsTwoOpt : ClassBinding :=
  ⟨"lsOps", plain "TwoOpt", some nodeOperator, "TwoOpt",
    [.init [dataCRef, pmCRef] [arg "data", arg "penalty_manager"]]⟩

/-- Lines 356-359. -/
def clsRelocateStar : ClassBinding :=
  ⟨"lsOps", plain "RelocateStar", some routeOperator, "RelocateStar",
    [.init [dataCRef, pmCRef] [arg "data", arg "penalty_manager"]]⟩

/-- Lines 361-364. -/
def clsSwapStar : ClassBinding :=
  ⟨"lsOps", plain "SwapStar", some routeOperator, "SwapStar",
    [.init [dataCRef, pmCRef] [arg "data", arg "penalty_manager"]]⟩

/-- The body of `PYBIND11_MODULE(hgspy, m)`, lines 35-365. -/
def hgspy : List Stmt :=
  [.cls clsXorShift128,
   .cls clsPenaltyParams,
   .cls clsPenaltyManager,
   .cls clsIndividual,
   .cls clsLocalSearchParams,
   .cls clsLocalSearch,
   .cls clsProblemData,
   .cls clsPopulationParams,
   .cls clsPopulation,
   .cls clsStatistics,
   .cls clsResult,
   .cls clsSolverParams,
   .cls clsGeneticAlgorithm,
   .submodule "diversity" "m" "diversity",
   .func "diversity" "broken_pairs_distance" "brokenPairsDistance",
   .submodule "stop" "m" "stop",
   .cls clsStoppingCriterion,
   .cls clsMaxIterations,
   .cls clsMaxRuntime,
   .cls clsNoImprovement,
   .cls clsTimedNoImprovement,
   .submodule "xOps" "m" "crossover",
   .func "xOps" "selective_route_exchange" "selectiveRouteExchange",
   .submodule "lsOps" "m" "operators",
   .cls clsNodeLocalSearchOperator,
   .cls clsRouteLocalSearchOperator,
   .cls clsExchange10,
   .cls clsExchange20,
   .cls clsExchange30,
   .cls clsExchange11,
   .cls clsExchange21,
   .cls clsExchange31,
   .cls clsExchange22,
   .cls clsExchange32,
   .cls clsExchange33,
   .cls clsMoveTwoClientsReversed,
   .cls clsTwoOpt,
   .cls clsRelocateStar,
   .cls clsSwapStar]

/-! ## Queries on the module -/

/-- The class registrations of the module, in source order. -/
def classes : List ClassBinding :=
  hgspy.filterMap fun s => match s with
    | .cls c => some c
    | _ => none

/-- The class registered under a Python name, if any. -/
def findClass (pyName : String) : Option ClassBinding :=
  classes.find? fun c => c.pyName == pyName

/-- The constructors of a class: parameter types and arguments of every
`py::init`. -/
def ClassBinding.inits (c : ClassBinding) : List (List CppType × List Arg) :=
  c.defs.filterMap fun d => match d with
    | .init ts args => some (ts, args)
    | _ => none

/-- The names of the read-only attributes of a class. -/
def ClassBinding.readonlyNames (c : ClassBinding) : List String :=
  c.defs.filterMap fun d => match d with
    | .readonly n _ => some n
    | _ => none

/-- The names of the writable attributes of a class. -/
def ClassBinding.readwriteNames (c : ClassBinding) : List String :=
  c.defs.filterMap fun d => match d with
    | .readwrite n _ => some n
    | _ => none

/-- The operations of a class other than constructors and attributes: bound
methods (with their argument names) and static methods. -/
def ClassBinding.operations (c : ClassBinding) : List (String × List String) :=
  c.defs.filterMap fun d => match d with
    | .method n _ args _ => some (n, args.map Arg.name)
    | .methodCast n _ _ args => some (n, args.map Arg.name)
    | .static n _ => some (n, [])
    | _ => none

/-! ## Calling a bound constructor

pybind11 matches the positional values of a call against the declared
arguments from the left; an argument that receives no value takes its declared
default, and the call is rejected when such an argument has none or when more
values are passed than arguments are declared. -/

/-- The keyword/value list a constructor with the declared arguments receives
when called with the positional values `given`; `none` when the call is
rejected. -/
def bindArgs : List Arg → List Default → Option (List (String × Default))
  | [], [] => some []
  | [], _ :: _ => none
  | a :: rest, v :: vs => (bindArgs rest vs).map fun kv => (a.name, v) :: kv
  | a :: rest, [] =>
    match a.dflt with
    | some d => (bindArgs rest []).map fun kv => (a.name, d) :: kv
    | none => none

/-- Calling a class with positional values: the first constructor, in
registration order, that accepts them. -/
def ClassBinding.construct (c : ClassBinding) (given : List Default) :
    Option (List (String × Default)) :=
  c.inits.findSome? fun i => bindArgs i.2 given

/-- The values the constructor of the class registered as `pyName` receives
when it is called without arguments. -/
def noArgs (pyName : String) : Option (List (String × Default)) :=
  (findClass pyName).bind fun c => c.construct []

/-- The value a default literal denotes, read as an exact rational; `none` for
a boolean or character literal. -/
def Default.toRat : Default → Option ℚ
  | .nat n => some n
  | .dec m k => some ((m : ℚ) / 10 ^ k)
  | .bool _ => none
  | .char _ => none

/-- The literal a field gets when the class is constructed without arguments. -/
def defaultOf (pyName field : String) : Option Default :=
  (noArgs pyName).bind fun kv => kv.lookup field

/-- The number a field gets when the class is constructed without arguments. -/
def defaultRat (pyName field : String) : Option ℚ :=
  (defaultOf pyName field).bind Default.toRat

/-- The names of the four hyperparameter bundles. -/
def bundleNames : List String :=
  ["PenaltyParams", "LocalSearchParams", "PopulationParams", "SolverParams"]

/-- The registrations of the four hyperparameter bundles. -/
def bundles : List ClassBinding :=
  bundleNames.filterMap findClass

/-- Whether a parameter type is numeric (an integer or floating-point type, as
opposed to `bool` or a class, container or reference type). -/
def CppType.isNumeric : CppType → Bool
  | .int | .unsignedInt | .sizeT | .double => true
  | _ => false

/-- The classes registered with the given base class. -/
def subclassesOf (base : CppClass) : List ClassBinding :=
  classes.filter fun c => c.base == some base

/-- A local search operator is a class registered as a subclass of some
`LocalSearchOperator<...>`. -/
def ClassBinding.isOperator (c : ClassBinding) : Bool :=
  match c.base with
  | some b => b.name == "LocalSearchOperator"
  | none => false

/-- The local search operators the module registers, in source order. -/
def operators : List ClassBinding :=
  classes.filter ClassBinding.isOperator

/-- The node operator family: subclasses of `LocalSearchOperator<Node>`. -/
def nodeOperators : List ClassBinding :=
  subclassesOf nodeOperator

/-- The route operator family: subclasses of `LocalSearchOperator<Route>`. -/
def routeOperators : List ClassBinding :=
  subclassesOf routeOperator

/-- The stopping criteria: subclasses of `StoppingCriterion`. -/
def stoppingCriteria : List ClassBinding :=
  subclassesOf (plain "StoppingCriterion")

/-- The classes registered in a given module or submodule variable. -/
def classesIn (scope : String) : List ClassBinding :=
  classes.filter fun c => c.scope == scope

/-- The parameter types the method `name` of a class is cast to, for the
methods bound through a `static_cast`. -/
def ClassBinding.castParams (c : ClassBinding) (name : String) : Option (List CppType) :=
  c.defs.findSome? fun d => match d with
    | .methodCast n _ ps _ => if n == name then some ps else none
    | _ => none

/-- The registered instantiations of the `Exchange` template: the template
arguments `(a, b)` of `Exchange<a, b>` with the Python name of the class. -/
def exchangeVariants : List ((Nat × Nat) × String) :=
  classes.filterMap fun c =>
    if c.cppType.name == "Exchange" then
      match c.cppType.targs with
      | [.num a, .num b] => some ((a, b), c.pyName)
      | _ => none
    else none

/-- The template argument pairs of the registered `Exchange` variants. -/
def exchangePairs : List (Nat × Nat) :=
  exchangeVariants.map Prod.fst

/-- The name `Exchange` followed by the decimal digits of `a` and of `b`. -/
def exchangeName (a b : Nat) : String :=
  "Exchange" ++ toString a ++ toString b

/-! ## The penalty manager

The binding registers `PenaltyParams` and `PenaltyManager`
(lines 40-66); the classes themselves are declared in `PenaltyParams.h` and
`PenaltyManager.h`, which are not part of the source tree at hand.  The
definitions of this section follow sections 3 and 4.1 of the specification.
Multipliers and factors are exact rationals. -/

/-- Modelled from the spec: the fixed hyperparameters of the penalty manager
(section 3: initial values, increase and decrease multiplicative factors,
target feasible fraction, booster factor), whose class `PenaltyParams` is
missing from the sources.  The fields are the members the binding reads in
lines 53-60, with the constructor parameter types of lines 41-46: three
`unsigned int` and three `double`. -/
structure PenaltyParams where
  initCapacityPenalty : Nat
  initTimeWarpPenalty : Nat
  repairBooster : Nat
  penaltyIncrease : ℚ
  penaltyDecrease : ℚ
  targetFeasible : ℚ

/-- The parameters obtained from the defaults declared in lines 47-52. -/
def PenaltyParams.defaults : PenaltyParams :=
  ⟨20, 6, 12, 134 / 100, 32 / 100, 43 / 100⟩

/-- Modelled from the spec: the route structure of a solution (section 3: an
ordered sequence of routes, each an ordered sequence of client ids, the depot
implicit at both ends), whose class `Individual` is missing from the sources.
It is the value `get_routes` returns (line 80). -/
structure Individual where
  routes : List (List Nat)

/-- Modelled from the spec: the client-adjacency pairs of a solution (section
4.5: a client with its immediate successor in its route).  The successor of
the last client of a route is the depot, index 0 (section 3). -/
def Individual.successorPairs (x : Individual) : List (Nat × Nat) :=
  x.routes.flatMap fun r => r.zip (r.tail ++ [0])

/-- Modelled from the spec: the fraction of the client-adjacency pairs present
in `a` that are absent in `b` (section 4.5). -/
def brokenFraction (a b : Individual) : ℚ :=
  ((a.successorPairs.filter fun p => decide (p ∉ b.successorPairs)).length : ℚ)
    / (a.successorPairs.length : ℚ)

/-- Modelled from the spec: `brokenPairsDistance`, missing from the sources
(section 4.5: the fraction of client-adjacency pairs present in A but absent
in B, averaged symmetrically). -/
def brokenPairsDistance (a b : Individual) : ℚ :=
  (brokenFraction a b + brokenFraction b a) / 2

/-! ## Evaluation lemmas -/

theorem noArgs_PenaltyParams :
    noArgs "PenaltyParams" = some
      [("init_capacity_penalty", .nat 20), ("init_time_warp_penalty", .nat 6),
       ("repair_booster", .nat 12), ("penalty_increase", .dec 134 2),
       ("penalty_decrease", .dec 32 2), ("target_feasible", .dec 43 2)] := by
  decide

theorem noArgs_LocalSearchParams :
    noArgs "LocalSearchParams" = some
      [("weight_wait_time", .nat 18), ("weight_time_warp", .nat 20),
       ("nb_granular", .nat 34), ("post_process_path_length", .nat 7)] := by
  decide

theorem noArgs_PopulationParams :
    noArgs "PopulationParams" = some
      [("min_pop_size", .nat 25), ("generation_size", .nat 40),
       ("nb_elite", .nat 4), ("nb_close", .nat 5),
       ("lb_diversity", .dec 1 1), ("ub_diversity", .dec 5 1)] := by
  decide

theorem noArgs_SolverParams :
    noArgs "SolverParams" = some
      [("nb_penalty_management", .nat 47), ("repair_probability", .nat 79),
       ("collect_statistics", .bool false), ("should_intensify", .bool true)] := by
  decide

/-- A default that evaluates to the literal `d` denotes the number `d` denotes. -/
theorem defaultRat_of_defaultOf {c f : String} {d : Default}
    (h : defaultOf c f = some d) : defaultRat c f = d.toRat := by
  simp [defaultRat, h]

theorem toRat_nat (n : Nat) : (Default.nat n).toRat = some (n : ℚ) := rfl

theorem toRat_dec (m k : Nat) : (Default.dec m k).toRat = some ((m : ℚ) / 10 ^ k) := rfl

theorem exchangeVariants_eq :
    exchangeVariants =
      [((1, 0), "Exchange10"), ((2, 0), "Exchange20"), ((3, 0), "Exchange30"),
       ((1, 1), "Exchange11"), ((2, 1), "Exchange21"), ((3, 1), "Exchange31"),
       ((2, 2), "Exchange22"), ((3, 2), "Exchange32"), ((3, 3), "Exchange33")] := by
  decide

theorem exchangePairs_eq :
    exchangePairs =
      [(1, 0), (2, 0), (3, 0), (1, 1), (2, 1), (3, 1), (2, 2), (3, 2), (3, 3)] := by
  decide

/-! ## Claims about the registrations -/

/-- C1: constructing a hyperparameter bundle without arguments gives every
field the default the specification documents: `PenaltyParams` gets
init_capacity_penalty 20, init_time_warp_penalty 6, repair_booster 12,
penalty_increase 1.34, penalty_decrease 0.32, target_feasible 0.43;
`LocalSearchParams` gets nb_granular 34; `PopulationParams` gets min_pop_size
25, generation_size 40, nb_elite 4, nb_close 5, lb_diversity 0.1 and
ub_diversity 0.5 (decimals as exact rationals). -/
theorem C1_documented_defaults :
    defaultRat "PenaltyParams" "init_capacity_penalty" = some 20 ∧
    defaultRat "PenaltyParams" "init_time_warp_penalty" = some 6 ∧
    defaultRat "PenaltyParams" "repair_booster" = some 12 ∧
    defaultRat "PenaltyParams" "penalty_increase" = some 1.34 ∧
    defaultRat "PenaltyParams" "penalty_decrease" = some 0.32 ∧
    defaultRat "PenaltyParams" "target_feasible" = some 0.43 ∧
    defaultRat "LocalSearchParams" "nb_granular" = some 34 ∧
    defaultRat "PopulationParams" "min_pop_size" = some 25 ∧
    defaultRat "PopulationParams" "generation_size" = some 40 ∧
    defaultRat "PopulationParams" "nb_elite" = some 4 ∧
    defaultRat "PopulationParams" "nb_close" = some 5 ∧
    defaultRat "PopulationParams" "lb_diversity" = some 0.1 ∧
    defaultRat "PopulationParams" "ub_diversity" = some 0.5 := by
  have h1 : defaultOf "PenaltyParams" "init_capacity_penalty" = some (.nat 20) := by decide
  have h2 : defaultOf "PenaltyParams" "init_time_warp_penalty" = some (.nat 6) := by decide
  have h3 : defaultOf "PenaltyParams" "repair_booster" = some (.nat 12) := by decide
  have h4 : defaultOf "PenaltyParams" "penalty_increase" = some (.dec 134 2) := by decide
  have h5 : defaultOf "PenaltyParams" "penalty_decrease" = some (.dec 32 2) := by decide
  have h6 : defaultOf "PenaltyParams" "target_feasible" = some (.dec 43 2) := by decide
  have h7 : defaultOf "LocalSearchParams" "nb_granular" = some (.nat 34) := by decide
  have h8 : defaultOf "PopulationParams" "min_pop_size" = some (.nat 25) := by decide
  have h9 : defaultOf "PopulationParams" "generation_size" = some (.nat 40) := by decide
  have h10 : defaultOf "PopulationParams" "nb_elite" = some (.nat 4) := by decide
  have h11 : defaultOf "PopulationParams" "nb_close" = some (.nat 5) := by decide
  have h12 : defaultOf "PopulationParams" "lb_diversity" = some (.dec 1 1) := by decide
  have h13 : defaultOf "PopulationParams" "ub_diversity" = some (.dec 5 1) := by decide
  rw [defaultRat_of_defaultOf h1, defaultRat_of_defaultOf h2, defaultRat_of_defaultOf h3,
    defaultRat_of_defaultOf h4, defaultRat_of_defaultOf h5, defaultRat_of_defaultOf h6,
    defaultRat_of_defaultOf h7, defaultRat_of_defaultOf h8, defaultRat_of_defaultOf h9,
    defaultRat_of_defaultOf h10, defaultRat_of_defaultOf h11, defaultRat_of_defaultOf h12,
    defaultRat_of_defaultOf h13]
  simp only [toRat_nat, toRat_dec]
  norm_num

/-- C2: the module registers exactly thirteen local search operators.  Eleven
are subclasses of `LocalSearchOperator<Node>`: nine instantiations of
`Exchange`, `MoveTwoClientsReversed` and `TwoOpt`.  Two are subclasses of
`LocalSearchOperator<Route>`: `RelocateStar` and `SwapStar`.  No operator is in
both families, the thirteen names are distinct, and every operator has one
constructor and nothing else, taking `(data, penalty_manager)`.  Besides the
operators the `operators` submodule holds only the two family base classes,
which have no constructor, and `LocalSearch` takes a node operator through
`add_node_operator` and a route operator through `add_route_operator`. -/
theorem C2_operator_families :
    operators.length = 13 ∧
    (operators.map ClassBinding.pyName).Nodup ∧
    operators = nodeOperators ++ routeOperators ∧
    nodeOperators.map ClassBinding.cppType =
      [exchangeT 1 0, exchangeT 2 0, exchangeT 3 0, exchangeT 1 1, exchangeT 2 1,
       exchangeT 3 1, exchangeT 2 2, exchangeT 3 2, exchangeT 3 3,
       plain "MoveTwoClientsReversed", plain "TwoOpt"] ∧
    nodeOperators.map ClassBinding.pyName =
      ["Exchange10", "Exchange20", "Exchange30", "Exchange11", "Exchange21",
       "Exchange31", "Exchange22", "Exchange32", "Exchange33",
       "MoveTwoClientsReversed", "TwoOpt"] ∧
    (nodeOperators.filter fun c => c.cppType.name == "Exchange").length = 9 ∧
    routeOperators.map ClassBinding.cppType = [plain "RelocateStar", plain "SwapStar"] ∧
    routeOperators.map ClassBinding.pyName = ["RelocateStar", "SwapStar"] ∧
    (∀ c ∈ nodeOperators, c ∉ routeOperators) ∧
    (∀ c ∈ operators,
      c.defs = [.init [dataCRef, pmCRef] [arg "data", arg "penalty_manager"]]) ∧
    classesIn "lsOps" =
      clsNodeLocalSearchOperator :: clsRouteLocalSearchOperator :: operators ∧
    clsNodeLocalSearchOperator.defs = [] ∧
    clsRouteLocalSearchOperator.defs = [] ∧
    (findClass "LocalSearch").bind (fun c => c.castParams "add_node_operator") =
      some [.ref (.cls nodeOperator)] ∧
    (findClass "LocalSearch").bind (fun c => c.castParams "add_route_operator") =
      some [.ref (.cls routeOperator)] := by
  decide

/-- C3: the subclasses of `StoppingCriterion` are exactly `MaxIterations`,
`MaxRuntime`, `NoImprovement` and `TimedNoImprovement`, and with the base class
they are all the `stop` submodule holds.  Each of the four has one constructor
and exactly one further member, the method `__call__` with the single argument
`best_cost`; none has an attribute, and none has an operation named `reset`.
The base class has no member at all. -/
theorem C3_stopping_criteria :
    stoppingCriteria.map ClassBinding.pyName =
      ["MaxIterations", "MaxRuntime", "NoImprovement", "TimedNoImprovement"] ∧
    classesIn "stop" = clsStoppingCriterion :: stoppingCriteria ∧
    clsStoppingCriterion.defs = [] ∧
    (∀ c ∈ stoppingCriteria,
      c.inits.length = 1 ∧
      c.operations = [("__call__", ["best_cost"])] ∧
      c.readonlyNames = [] ∧
      c.readwriteNames = [] ∧
      c.defs.length = 2) ∧
    (∀ c ∈ stoppingCriteria, ∀ op ∈ c.operations, op.1 ≠ "reset") := by
  decide

/-- C4: `PenaltyParams` has one constructor with 6 parameters, all numeric;
`LocalSearchParams` one with 4, all numeric; `PopulationParams` one with 6, all
numeric; `SolverParams` one with the 4 parameters nb_penalty_management,
repair_probability, collect_statistics, should_intensify in this order, the
first two numeric (`size_t`) and the last two `bool`.  Each parameter is named
by one argument, the bundles expose 6, 4, 6 and 4 attributes, all 20 arguments
declare a default, and each bundle can be constructed without arguments. -/
theorem C4_bundle_arities :
    bundles.map ClassBinding.pyName = bundleNames ∧
    (findClass "PenaltyParams").map
        (fun c => c.inits.map fun i => (i.1.length, i.1.all CppType.isNumeric))
      = some [(6, true)] ∧
    (findClass "LocalSearchParams").map
        (fun c => c.inits.map fun i => (i.1.length, i.1.all CppType.isNumeric))
      = some [(4, true)] ∧
    (findClass "PopulationParams").map
        (fun c => c.inits.map fun i => (i.1.length, i.1.all CppType.isNumeric))
      = some [(6, true)] ∧
    (findClass "SolverParams").map
        (fun c => c.inits.map fun i => (i.1, i.2.map Arg.name))
      = some [([.sizeT, .sizeT, .bool, .bool],
          ["nb_penalty_management", "repair_probability", "collect_statistics",
           "should_intensify"])] ∧
    CppType.isNumeric .sizeT = true ∧
    CppType.isNumeric .bool = false ∧
    (∀ c ∈ bundles, ∀ i ∈ c.inits, i.1.length = i.2.length) ∧
    bundles.map (fun c => c.readonlyNames.length) = [6, 4, 6, 4] ∧
    (bundles.flatMap fun c => c.inits.flatMap fun i => i.2).length = 20 ∧
    (∀ a ∈ bundles.flatMap fun c => c.inits.flatMap fun i => i.2, a.dflt.isSome = true) ∧
    (∀ n ∈ bundleNames, (noArgs n).isSome = true) := by
  decide

/-- C8: a pair `(a, b)` is the template argument pair of exactly one registered
`Exchange<a, b>` when `1 ≤ a ≤ 3` and `b ≤ a`, and of none otherwise; there are
nine registered variants, and each is registered under the name `Exchange`
followed by the digits of `a` and `b`. -/
theorem C8_exchange_variants :
    (∀ a b : Nat,
      exchangePairs.count (a, b) = if 1 ≤ a ∧ a ≤ 3 ∧ b ≤ a then 1 else 0) ∧
    exchangePairs.length = 9 ∧
    exchangeVariants.length = 9 ∧
    (∀ v ∈ exchangeVariants, v.2 = exchangeName v.1.1 v.1.2) ∧
    (∀ v ∈ exchangeVariants,
      (findClass v.2).map ClassBinding.cppType = some (exchangeT v.1.1 v.1.2)) := by
  refine ⟨?_, by decide, by decide, by decide, by decide⟩
  intro a b
  have hall : ∀ p ∈ exchangePairs, 1 ≤ p.1 ∧ p.1 ≤ 3 ∧ p.2 ≤ p.1 := by decide
  by_cases h : 1 ≤ a ∧ a ≤ 3 ∧ b ≤ a
  · rw [if_pos h]
    obtain ⟨h1, h2, h3⟩ := h
    interval_cases a <;> interval_cases b <;> decide
  · rw [if_neg h, List.count_eq_zero]
    intro hmem
    exact h (hall (a, b) hmem)

/-- C9: the declared defaults are coherent: penalty_increase exceeds 1,
penalty_decrease and target_feasible lie strictly between 0 and 1,
`0 ≤ lb_diversity < ub_diversity ≤ 1`, nb_elite is at most and nb_close is
below min_pop_size, generation_size and nb_penalty_management are positive, and
repair_probability is at most 100 (decimals as exact rationals). -/
theorem C9_defaults_coherent :
    ∃ inc dec target lb ub elite close minPop gen mgmt repair : ℚ,
      defaultRat "PenaltyParams" "penalty_increase" = some inc ∧
      defaultRat "PenaltyParams" "penalty_decrease" = some dec ∧
      defaultRat "PenaltyParams" "target_feasible" = some target ∧
      defaultRat "PopulationParams" "lb_diversity" = some lb ∧
      defaultRat "PopulationParams" "ub_diversity" = some ub ∧
      defaultRat "PopulationParams" "nb_elite" = some elite ∧
      defaultRat "PopulationParams" "nb_close" = some close ∧
      defaultRat "PopulationParams" "min_pop_size" = some minPop ∧
      defaultRat "PopulationParams" "generation_size" = some gen ∧
      defaultRat "SolverParams" "nb_penalty_management" = some mgmt ∧
      defaultRat "SolverParams" "repair_probability" = some repair ∧
      1 < inc ∧ 0 < dec ∧ dec < 1 ∧ 0 < target ∧ target < 1 ∧
      0 ≤ lb ∧ lb < ub ∧ ub ≤ 1 ∧
      elite ≤ minPop ∧ close < minPop ∧ 0 < gen ∧ 0 < mgmt ∧ repair ≤ 100 := by
  have h1 : defaultOf "PenaltyParams" "penalty_increase" = some (.dec 134 2) := by decide
  have h2 : defaultOf "PenaltyParams" "penalty_decrease" = some (.dec 32 2) := by decide
  have h3 : defaultOf "PenaltyParams" "target_feasible" = some (.dec 43 2) := by decide
  have h4 : defaultOf "PopulationParams" "lb_diversity" = some (.dec 1 1) := by decide
  have h5 : defaultOf "PopulationParams" "ub_diversity" = some (.dec 5 1) := by decide
  have h6 : defaultOf "PopulationParams" "nb_elite" = some (.nat 4) := by decide
  have h7 : defaultOf "PopulationParams" "nb_close" = some (.nat 5) := by decide
  have h8 : defaultOf "PopulationParams" "min_pop_size" = some (.nat 25) := by decide
  have h9 : defaultOf "PopulationParams" "generation_size" = some (.nat 40) := by decide
  have h10 : defaultOf "SolverParams" "nb_penalty_management" = some (.nat 47) := by decide
  have h11 : defaultOf "SolverParams" "repair_probability" = some (.nat 79) := by decide
  refine ⟨_, _, _, _, _, _, _, _, _, _, _,
    defaultRat_of_defaultOf h1, defaultRat_of_defaultOf h2, defaultRat_of_defaultOf h3,
    defaultRat_of_defaultOf h4, defaultRat_of_defaultOf h5, defaultRat_of_defaultOf h6,
    defaultRat_of_defaultOf h7, defaultRat_of_defaultOf h8, defaultRat_of_defaultOf h9,
    defaultRat_of_defaultOf h10, defaultRat_of_defaultOf h11, ?_⟩
  norm_num

/-- C10: each of the four hyperparameter bundles has exactly one constructor,
and its members besides the constructor are read-only attributes, one for each
constructor argument, with the same names in the same order and no name twice:
20 attributes in all.  No bundle has a writable attribute, a method or a static
method. -/
theorem C10_bundles_read_only :
    bundles.length = 4 ∧
    (∀ c ∈ bundles,
      c.inits.map (fun i => i.2.map Arg.name) = [c.readonlyNames] ∧
      c.readonlyNames.Nodup ∧
      c.readwriteNames = [] ∧
      c.operations = [] ∧
      c.defs.length = 1 + c.readonlyNames.length) ∧
    (bundles.flatMap ClassBinding.readonlyNames).length = 20 := by
  decide

/-! ## The broken pairs distance -/

theorem mem_successorPairs {x : Individual} {p : Nat × Nat} :
    p ∈ x.successorPairs ↔ ∃ r ∈ x.routes, p ∈ r.zip (r.tail ++ [0]) := by
  simp [Individual.successorPairs]

/-- Solutions with the same routes, in any order, have the same adjacency pairs. -/
theorem successorPairs_subset {a b : Individual}
    (h : ∀ r, r ∈ a.routes → r ∈ b.routes) :
    ∀ p ∈ a.successorPairs, p ∈ b.successorPairs := by
  intro p hp
  obtain ⟨r, hr, hpr⟩ := mem_successorPairs.mp hp
  exact mem_successorPairs.mpr ⟨r, h r hr, hpr⟩

theorem brokenFraction_nonneg (a b : Individual) : 0 ≤ brokenFraction a b := by
  unfold brokenFraction
  positivity

theorem brokenFraction_le_one (a b : Individual) : brokenFraction a b ≤ 1 := by
  unfold brokenFraction
  apply div_le_one_of_le₀
  · exact_mod_cast List.length_filter_le _ _
  · positivity

/-- No pair is broken when every adjacency pair of `a` occurs in `b`. -/
theorem brokenFraction_eq_zero {a b : Individual}
    (h : ∀ p ∈ a.successorPairs, p ∈ b.successorPairs) : brokenFraction a b = 0 := by
  unfold brokenFraction
  have hnil : (a.successorPairs.filter fun p => decide (p ∉ b.successorPairs)) = [] := by
    rw [List.filter_eq_nil_iff]
    intro p hp
    simpa using h p hp
  rw [hnil]
  simp

/-- C6: the broken pairs distance is symmetric, it is zero for two solutions
with the same set of routes (in particular for two solutions with identical
route lists), and it lies between 0 and 1. -/
theorem C6_broken_pairs_distance (a b : Individual) :
    brokenPairsDistance a b = brokenPairsDistance b a ∧
    ((∀ r, r ∈ a.routes ↔ r ∈ b.routes) → brokenPairsDistance a b = 0) ∧
    (a.routes = b.routes → brokenPairsDistance a b = 0) ∧
    0 ≤ brokenPairsDistance a b ∧
    brokenPairsDistance a b ≤ 1 := by
  have hzero : (∀ r, r ∈ a.routes ↔ r ∈ b.routes) → brokenPairsDistance a b = 0 := by
    intro h
    unfold brokenPairsDistance
    rw [brokenFraction_eq_zero (successorPairs_subset fun r hr => (h r).mp hr),
      brokenFraction_eq_zero (successorPairs_subset fun r hr => (h r).mpr hr)]
    norm_num
  refine ⟨?_, hzero, ?_, ?_, ?_⟩
  · unfold brokenPairsDistance
    rw [add_comm]
  · intro h
    exact hzero fun r => by rw [h]
  · have h1 := brokenFraction_nonneg a b
    have h2 := brokenFraction_nonneg b a
    unfold brokenPairsDistance
    positivity
  · have h1 := brokenFraction_le_one a b
    have h2 := brokenFraction_le_one b a
    unfold brokenPairsDistance
    linarith

/-! ## The penalty manager -/

/-- The model's default parameters are the defaults the binding declares. -/
theorem defaults_eq_declared :
    defaultRat "PenaltyParams" "init_capacity_penalty"
      = some (PenaltyParams.defaults.initCapacityPenalty : ℚ) ∧
    defaultRat "PenaltyParams" "init_time_warp_penalty"
      = some (PenaltyParams.defaults.initTimeWarpPenalty : ℚ) ∧
    defaultRat "PenaltyParams" "repair_booster"
      = some (PenaltyParams.defaults.repairBooster : ℚ) ∧
    defaultRat "PenaltyParams" "penalty_increase"
      = some PenaltyParams.defaults.penaltyIncrease ∧
    defaultRat "PenaltyParams" "penalty_decrease"
      = some PenaltyParams.defaults.penaltyDecrease ∧
    defaultRat "PenaltyParams" "target_feasible"
      = some PenaltyParams.defaults.targetFeasible := by
  have h1 : defaultOf "PenaltyParams" "init_capacity_penalty" = some (.nat 20) := by decide
  have h2 : defaultOf "PenaltyParams" "init_time_warp_penalty" = some (.nat 6) := by decide
  have h3 : defaultOf "PenaltyParams" "repair_booster" = some (.nat 12) := by decide
  have h4 : defaultOf "PenaltyParams" "penalty_increase" = some (.dec 134 2) := by decide
  have h5 : defaultOf "PenaltyParams" "penalty_decrease" = some (.dec 32 2) := by decide
  have h6 : defaultOf "PenaltyParams" "target_feasible" = some (.dec 43 2) := by decide
  rw [defaultRat_of_defaultOf h1, defaultRat_of_defaultOf h2, defaultRat_of_defaultOf h3,
    defaultRat_of_defaultOf h4, defaultRat_of_defaultOf h5, defaultRat_of_defaultOf h6]
  simp only [toRat_nat, toRat_dec, PenaltyParams.defaults]
  norm_num

end Hgspy
